import Mathlib

/-!
Verification of the dataset access negotiation procedure of `ogrinfo`
(`apps/ogrinfo_bin.cpp`, function `main`, lines 132-223): initial open-flag
computation, driver-identification probe, bounded fallback retries, the
"had to open read-only" advisory, terminal-failure diagnostics and exit code.
-/

namespace Ogrinfo

/-- Symbolic model of the GDAL open-flag bits combined in `nFlags`:
`GDAL_OF_VECTOR`, `GDAL_OF_READONLY`, `GDAL_OF_UPDATE`,
`GDAL_OF_VERBOSE_ERROR`.  Each bit is a Boolean field; `nFlags |= BIT`
in the source becomes setting the corresponding field. -/
structure Flags where
  vector : Bool
  readOnly : Bool
  update : Bool
  verboseError : Bool
deriving DecidableEq, Repr

/-- Flags `GDAL_OF_VECTOR | GDAL_OF_UPDATE | GDAL_OF_VERBOSE_ERROR`
(lines 135 and 153). -/
def vectorUpdateVerbose : Flags := ⟨true, false, true, true⟩

/-- Flags `GDAL_OF_VECTOR | GDAL_OF_READONLY | GDAL_OF_VERBOSE_ERROR`
(line 137, and lines 140+149 when the probe fails). -/
def vectorReadOnlyVerbose : Flags := ⟨true, true, false, true⟩

/-- Flags `GDAL_OF_VECTOR | GDAL_OF_READONLY` (line 140, probe succeeded
so `GDAL_OF_VERBOSE_ERROR` is not added). -/
def vectorReadOnly : Flags := ⟨true, true, false, false⟩

/-- Flags `GDAL_OF_UPDATE | GDAL_OF_VECTOR` of the retry-in-update-mode
fallback open (line 168). -/
def vectorUpdate : Flags := ⟨true, false, true, false⟩

/-- The fields of `GDALVectorInfoOptionsForBinary` read by the modelled
fragment: the datasource name, the `-u`/`-ro` access requests, the `-sql`
statement (empty string means none), the verbosity flag (`-q` clears it)
and the `-oo` open options. -/
structure BinOptions where
  filename : String
  bUpdate : Bool
  bReadOnly : Bool
  osSQLStatement : String
  bVerbose : Bool
  aosOpenOptions : List String
deriving DecidableEq, Repr

/-- One invocation of `GDALDataset::Open`: the path, the flag set and the
open-options list passed to the opener. -/
structure OpenCall where
  path : String
  flags : Flags
  options : List String
deriving DecidableEq, Repr

/-- The external collaborators of the negotiation: `identify` models
`GDALIdentifyDriverEx(path, GDAL_OF_VECTOR, nullptr, nullptr)` returning
nonnull; `openDS` models `GDALDataset::Open(path, flags, nullptr, options,
nullptr)` returning a nonnull dataset; `vectorInfoOk` models
`GDALVectorInfo` returning a nonnull report string. -/
structure Env where
  identify : String → Bool
  openDS : String → Flags → List String → Bool
  vectorInfoOk : Bool

/-- Observable outcome of one run of the modelled fragment: whether the
probe was invoked, the value of `bMayRetryUpdateMode`, the ordered list of
opener invocations, whether a dataset handle was finally obtained, whether
it was obtained through the read-only fallback (the spec's `degraded`),
whether the "Had to open data source read-only." advisory was printed,
the stderr diagnostic lines, and the process exit code. -/
structure RunResult where
  probeCalled : Bool
  bMayRetryUpdateMode : Bool
  opens : List OpenCall
  opened : Bool
  degraded : Bool
  advisory : Bool
  diagnostics : List String
  exitCode : Nat
deriving DecidableEq, Repr

/-- Lines 132-153: the initial flag computation.  `nFlags` starts as
`GDAL_OF_VECTOR`; `-u` forces update+verbose, `-ro` forces
read-only+verbose, otherwise with no SQL statement the flags are read-only
with verbose added exactly when `GDALIdentifyDriverEx` fails, and with an
SQL statement they are update+verbose. -/
def initialFlags (opts : BinOptions) (env : Env) : Flags :=
  if opts.bUpdate then vectorUpdateVerbose
  else if opts.bReadOnly then vectorReadOnlyVerbose
  else if opts.osSQLStatement.isEmpty then
    (if env.identify opts.filename then vectorReadOnly
     else vectorReadOnlyVerbose)
  else vectorUpdateVerbose

/-- Lines 133-153: the value of `bMayRetryUpdateMode` after the initial
flag computation.  It starts `false` and is set only in the
no-explicit-intent, no-SQL branch, when `GDALIdentifyDriverEx` succeeds. -/
def mayRetryUpdateMode (opts : BinOptions) (env : Env) : Bool :=
  if opts.bUpdate then false
  else if opts.bReadOnly then false
  else if opts.osSQLStatement.isEmpty then env.identify opts.filename
  else false

/-- Whether the run reaches the `GDALIdentifyDriverEx` call (line 141):
only in the branch where neither `-u` nor `-ro` was given and the SQL
statement is empty. -/
def probeInvoked (opts : BinOptions) : Bool :=
  if opts.bUpdate then false
  else if opts.bReadOnly then false
  else if opts.osSQLStatement.isEmpty then true
  else false

/-- Outcome of lines 154-185: the opener invocations made, whether `poDS`
is nonnull afterwards, whether the handle came from the read-only fallback
(lines 173-176), and whether the advisory of line 179 was printed. -/
structure NegotiationOutcome where
  opens : List OpenCall
  opened : Bool
  degraded : Bool
  advisory : Bool
deriving DecidableEq, Repr

/-- Lines 154-185: primary `GDALDataset::Open` with the computed flags,
then, when it returned null and neither `-ro` nor `-u` was given, at most
one fallback: retry with `GDAL_OF_UPDATE | GDAL_OF_VECTOR` when the SQL
statement is empty and `bMayRetryUpdateMode` holds, or retry with
`GDAL_OF_READONLY | GDAL_OF_VECTOR` when an SQL statement is present,
printing "Had to open data source read-only." when that retry succeeds
and `bVerbose` is set. -/
def negotiate (opts : BinOptions) (env : Env) : NegotiationOutcome :=
  let nFlags := initialFlags opts env
  let primary : OpenCall := ⟨opts.filename, nFlags, opts.aosOpenOptions⟩
  let poDS := env.openDS opts.filename nFlags opts.aosOpenOptions
  if !poDS && !opts.bReadOnly && !opts.bUpdate then
    if opts.osSQLStatement.isEmpty && mayRetryUpdateMode opts env then
      let retry := env.openDS opts.filename vectorUpdate opts.aosOpenOptions
      ⟨[primary, ⟨opts.filename, vectorUpdate, opts.aosOpenOptions⟩],
        retry, false, false⟩
    else if !opts.osSQLStatement.isEmpty then
      let retry := env.openDS opts.filename vectorReadOnly opts.aosOpenOptions
      ⟨[primary, ⟨opts.filename, vectorReadOnly, opts.aosOpenOptions⟩],
        retry, retry, retry && opts.bVerbose⟩
    else
      ⟨[primary], poDS, false, false⟩
  else
    ⟨[primary], poDS, false, false⟩

/-- The diagnostic printed to stderr on terminal open failure (line 191):
`ogrinfo failed - unable to open '<path>'.` -/
def failureDiagnostic (path : String) : String :=
  "ogrinfo failed - unable to open \x27" ++ path ++ "\x27."

/-- Lines 132-223 as one function: negotiation, then reporting.  When
`poDS` is null, `nRet = 1` and one diagnostic naming the path goes to
stderr; otherwise `GDALVectorInfo` runs and `nRet = 1` exactly when it
returns null; the process exits with `nRet`. -/
def run (opts : BinOptions) (env : Env) : RunResult :=
  let n := negotiate opts env
  { probeCalled := probeInvoked opts
    bMayRetryUpdateMode := mayRetryUpdateMode opts env
    opens := n.opens
    opened := n.opened
    degraded := n.degraded
    advisory := n.advisory
    diagnostics := if n.opened then [] else [failureDiagnostic opts.filename]
    exitCode := if n.opened then (if env.vectorInfoOk then 0 else 1) else 1 }

/-- Sample collaborator whose opener succeeds exactly when the read-only bit
is set (a read-only mount), and whose driver probe always recognizes. -/
def envOpensReadOnly : Env := ⟨fun _ => true, fun _ f _ => f.readOnly, true⟩

/-- Sample collaborator whose opener succeeds exactly when the update bit is
set (an empty geopackage-like container), probe always recognizes. -/
def envOpensUpdate : Env := ⟨fun _ => true, fun _ f _ => f.update, true⟩

/-- Sample collaborator recognized by no driver and openable by none. -/
def envOpensNever : Env := ⟨fun _ => false, fun _ _ _ => false, true⟩

/-- Sample options: no explicit access request, an SQL statement attached. -/
def w1Opts : BinOptions := ⟨"w1.gpkg", false, false, "SELECT 1 FROM t", true, []⟩

/-- Sample options: no explicit access request, no SQL statement. -/
def w2Opts : BinOptions := ⟨"w2.gpkg", false, false, "", true, []⟩

/-- Sample options: explicit read-only request. -/
def w3Opts : BinOptions := ⟨"w3.shp", false, true, "", true, []⟩

/-- Sample options violating the caller contract: both explicit requests. -/
def w9Opts : BinOptions := ⟨"w9.gpkg", true, true, "", true, []⟩

/-- Claim C1: with unspecified intent and a query attachment, the primary
open uses the Update (plus VerboseError) flags; if it fails, exactly one
fallback with ReadOnly flags is attempted, and the result is degraded
exactly when that fallback succeeds. -/
theorem c1_unspecified_query_fallback_readonly (opts : BinOptions) (env : Env)
    (hU : opts.bUpdate = false) (hR : opts.bReadOnly = false)
    (hS : opts.osSQLStatement.isEmpty = false) :
    (run opts env).opens.head? =
      some ⟨opts.filename, vectorUpdateVerbose, opts.aosOpenOptions⟩ ∧
    (env.openDS opts.filename vectorUpdateVerbose opts.aosOpenOptions = false →
      (run opts env).opens =
        [⟨opts.filename, vectorUpdateVerbose, opts.aosOpenOptions⟩,
         ⟨opts.filename, vectorReadOnly, opts.aosOpenOptions⟩] ∧
      (run opts env).degraded =
        env.openDS opts.filename vectorReadOnly opts.aosOpenOptions) := by
  constructor
  · cases h : env.openDS opts.filename vectorUpdateVerbose opts.aosOpenOptions <;>
      simp [run, negotiate, initialFlags, mayRetryUpdateMode, hU, hR, hS, h]
  · intro hFail
    simp [run, negotiate, initialFlags, mayRetryUpdateMode, hU, hR, hS, hFail]

/-- Witness for C1 at a concrete invocation: query attached, unspecified
intent, against a source that only opens read-only. -/
theorem c1_unspecified_query_fallback_readonly_witness :
    w1Opts.bUpdate = false ∧ w1Opts.bReadOnly = false ∧
    w1Opts.osSQLStatement.isEmpty = false ∧
    ((run w1Opts envOpensReadOnly).opens.head? =
        some ⟨w1Opts.filename, vectorUpdateVerbose, w1Opts.aosOpenOptions⟩ ∧
      (envOpensReadOnly.openDS w1Opts.filename vectorUpdateVerbose
          w1Opts.aosOpenOptions = false →
        (run w1Opts envOpensReadOnly).opens =
          [⟨w1Opts.filename, vectorUpdateVerbose, w1Opts.aosOpenOptions⟩,
           ⟨w1Opts.filename, vectorReadOnly, w1Opts.aosOpenOptions⟩] ∧
        (run w1Opts envOpensReadOnly).degraded =
          envOpensReadOnly.openDS w1Opts.filename vectorReadOnly
            w1Opts.aosOpenOptions)) :=
  ⟨rfl, rfl, by decide,
    c1_unspecified_query_fallback_readonly w1Opts envOpensReadOnly rfl rfl
      (by decide)⟩

/-- Claim C2: with unspecified intent and no query, the primary open uses
ReadOnly flags; when the probe recognizes the source and the primary open
fails, exactly one fallback with Update flags occurs; when the probe does
not recognize it, there is no fallback and the single open attempt carried
VerboseError. -/
theorem c2_unspecified_noquery_probe_fallback (opts : BinOptions) (env : Env)
    (hU : opts.bUpdate = false) (hR : opts.bReadOnly = false)
    (hS : opts.osSQLStatement.isEmpty = true) :
    (env.identify opts.filename = true →
      (run opts env).opens.head? =
        some ⟨opts.filename, vectorReadOnly, opts.aosOpenOptions⟩ ∧
      (env.openDS opts.filename vectorReadOnly opts.aosOpenOptions = false →
        (run opts env).opens =
          [⟨opts.filename, vectorReadOnly, opts.aosOpenOptions⟩,
           ⟨opts.filename, vectorUpdate, opts.aosOpenOptions⟩])) ∧
    (env.identify opts.filename = false →
      (run opts env).opens =
        [⟨opts.filename, vectorReadOnlyVerbose, opts.aosOpenOptions⟩]) := by
  constructor
  · intro hP
    constructor
    · cases h : env.openDS opts.filename vectorReadOnly opts.aosOpenOptions <;>
        simp [run, negotiate, initialFlags, mayRetryUpdateMode, hU, hR, hS, hP, h]
    · intro hFail
      simp [run, negotiate, initialFlags, mayRetryUpdateMode, hU, hR, hS, hP,
        hFail]
  · intro hP
    cases h : env.openDS opts.filename vectorReadOnlyVerbose opts.aosOpenOptions <;>
      simp [run, negotiate, initialFlags, mayRetryUpdateMode, hU, hR, hS, hP, h]

/-- Witness for C2 at a concrete invocation: no query, unspecified intent,
against a recognized container that only opens in update mode. -/
theorem c2_unspecified_noquery_probe_fallback_witness :
    w2Opts.bUpdate = false ∧ w2Opts.bReadOnly = false ∧
    w2Opts.osSQLStatement.isEmpty = true ∧
    ((envOpensUpdate.identify w2Opts.filename = true →
      (run w2Opts envOpensUpdate).opens.head? =
        some ⟨w2Opts.filename, vectorReadOnly, w2Opts.aosOpenOptions⟩ ∧
      (envOpensUpdate.openDS w2Opts.filename vectorReadOnly
          w2Opts.aosOpenOptions = false →
        (run w2Opts envOpensUpdate).opens =
          [⟨w2Opts.filename, vectorReadOnly, w2Opts.aosOpenOptions⟩,
           ⟨w2Opts.filename, vectorUpdate, w2Opts.aosOpenOptions⟩])) ∧
    (envOpensUpdate.identify w2Opts.filename = false →
      (run w2Opts envOpensUpdate).opens =
        [⟨w2Opts.filename, vectorReadOnlyVerbose, w2Opts.aosOpenOptions⟩])) :=
  ⟨rfl, rfl, rfl,
    c2_unspecified_noquery_probe_fallback w2Opts envOpensUpdate rfl rfl rfl⟩

/-- Claim C3: with an explicit access request, the computed flags carry
only the requested access bit, and exactly one open attempt occurs no
matter how it turns out. -/
theorem c3_explicit_intent_no_fallback (opts : BinOptions) (env : Env)
    (h : opts.bUpdate = true ∨ opts.bReadOnly = true) :
    (run opts env).opens.length = 1 ∧
    (opts.bUpdate = true →
      (run opts env).opens =
        [⟨opts.filename, vectorUpdateVerbose, opts.aosOpenOptions⟩]) ∧
    (opts.bUpdate = false →
      (run opts env).opens =
        [⟨opts.filename, vectorReadOnlyVerbose, opts.aosOpenOptions⟩]) := by
  rcases h with hU | hR
  · cases h1 : env.openDS opts.filename vectorUpdateVerbose opts.aosOpenOptions <;>
      simp [run, negotiate, initialFlags, hU, h1]
  · cases hU : opts.bUpdate <;>
      cases h1 : env.openDS opts.filename (initialFlags opts env)
          opts.aosOpenOptions <;>
        simp_all [run, negotiate, initialFlags]

/-- Witness for C3 at a concrete invocation: explicit read-only request on
a source no driver can open. -/
theorem c3_explicit_intent_no_fallback_witness :
    (w3Opts.bUpdate = true ∨ w3Opts.bReadOnly = true) ∧
    ((run w3Opts envOpensNever).opens.length = 1 ∧
    (w3Opts.bUpdate = true →
      (run w3Opts envOpensNever).opens =
        [⟨w3Opts.filename, vectorUpdateVerbose, w3Opts.aosOpenOptions⟩]) ∧
    (w3Opts.bUpdate = false →
      (run w3Opts envOpensNever).opens =
        [⟨w3Opts.filename, vectorReadOnlyVerbose, w3Opts.aosOpenOptions⟩])) :=
  ⟨Or.inr rfl,
    c3_explicit_intent_no_fallback w3Opts envOpensNever (Or.inr rfl)⟩

/-- Input refuting claim C4 as stated: unspecified intent, query attached,
verbosity off (the `-q` flag). -/
def c4Opts : BinOptions :=
  ⟨"byte.gpkg", false, false, "SELECT 1 FROM t", false, []⟩

/-- The source of `c4Opts`: a read-only mount, so the Update primary open
fails and the ReadOnly fallback succeeds. -/
def c4Env : Env := ⟨fun _ => true, fun _ f _ => f.readOnly, true⟩

/-- Counterexample to C4 as stated: the handle comes from the query-attached
read-only fallback (`degraded = true`), yet no advisory is printed because
verbosity is off. -/
theorem c4_advisory_counterexample :
    (run c4Opts c4Env).degraded = true ∧
    (run c4Opts c4Env).advisory = false :=
  ⟨rfl, rfl⟩

/-- Claim C4 amended: the advisory is surfaced exactly when the outcome is
degraded and the verbosity flag is on; with `-q` it is suppressed. -/
theorem c4_advisory_iff_verbose (opts : BinOptions) (env : Env) :
    (run opts env).advisory = ((run opts env).degraded && opts.bVerbose) := by
  cases hU : opts.bUpdate <;> cases hR : opts.bReadOnly <;>
    cases hS : opts.osSQLStatement.isEmpty <;>
      cases hI : env.identify opts.filename <;>
        cases h1 : env.openDS opts.filename (initialFlags opts env)
            opts.aosOpenOptions <;>
          simp_all [run, negotiate, initialFlags, mayRetryUpdateMode]

/-- Claim C5: at most two open attempts are ever made, and when no handle
results the failure is reported as ordinary failure — exit code 1, the one
diagnostic line, no degraded state, no advisory. -/
theorem c5_at_most_one_fallback_terminal (opts : BinOptions) (env : Env) :
    (run opts env).opens.length ≤ 2 ∧
    ((run opts env).opened = false →
      (run opts env).degraded = false ∧ (run opts env).advisory = false ∧
      (run opts env).exitCode = 1 ∧
      (run opts env).diagnostics = [failureDiagnostic opts.filename]) := by
  cases hU : opts.bUpdate <;> cases hR : opts.bReadOnly <;>
    cases hS : opts.osSQLStatement.isEmpty <;>
      cases hI : env.identify opts.filename <;>
        cases h1 : env.openDS opts.filename (initialFlags opts env)
            opts.aosOpenOptions <;>
          simp_all [run, negotiate, initialFlags, mayRetryUpdateMode]

/-- Claim C6: the driver-identification probe runs exactly when neither
explicit access request is present and no SQL statement is attached. -/
theorem c6_probe_only_unspecified_noquery (opts : BinOptions) (env : Env) :
    (run opts env).probeCalled =
      (!opts.bUpdate && !opts.bReadOnly && opts.osSQLStatement.isEmpty) := by
  cases hU : opts.bUpdate <;> cases hR : opts.bReadOnly <;>
    cases hS : opts.osSQLStatement.isEmpty <;>
      simp [run, probeInvoked, hU, hR, hS]

/-- Claim C7: exit code 0 exactly on full success (open succeeded and the
report was produced), 1 otherwise; terminal open failure emits exactly one
diagnostic line naming the path, and full success emits none. -/
theorem c7_exit_code_and_diagnostics (opts : BinOptions) (env : Env) :
    ((run opts env).exitCode = 0 ↔
      ((run opts env).opened = true ∧ env.vectorInfoOk = true)) ∧
    ((run opts env).exitCode = 0 ∨ (run opts env).exitCode = 1) ∧
    ((run opts env).opened = false →
      (run opts env).diagnostics = [failureDiagnostic opts.filename]) ∧
    ((run opts env).opened = true → (run opts env).diagnostics = []) := by
  cases h : (negotiate opts env).opened <;> cases hV : env.vectorInfoOk <;>
    simp [run, h, hV]

/-- Claim C8: every flag set handed to the opener — primary or fallback —
has the Vector bit set and exactly one of the ReadOnly/Update bits set. -/
theorem c8_flag_invariant (opts : BinOptions) (env : Env) :
    ((run opts env).opens.all fun c =>
      c.flags.vector && (c.flags.readOnly != c.flags.update)) = true := by
  cases hU : opts.bUpdate <;> cases hR : opts.bReadOnly <;>
    cases hS : opts.osSQLStatement.isEmpty <;>
      cases hI : env.identify opts.filename <;>
        cases h1 : env.openDS opts.filename (initialFlags opts env)
            opts.aosOpenOptions <;>
          simp_all [run, negotiate, initialFlags, mayRetryUpdateMode,
            vectorReadOnly, vectorReadOnlyVerbose, vectorUpdate,
            vectorUpdateVerbose]

/-- Claim C9 (implicit): when both explicit access requests are set, the
run is indistinguishable from one with only the update request — the one
open uses Update plus VerboseError flags and no fallback occurs. -/
theorem c9_both_flags_behaves_as_force_update (opts : BinOptions) (env : Env)
    (hU : opts.bUpdate = true) (hR : opts.bReadOnly = true) :
    run opts env = run { opts with bReadOnly := false } env ∧
    (run opts env).opens =
      [⟨opts.filename, vectorUpdateVerbose, opts.aosOpenOptions⟩] := by
  cases h1 : env.openDS opts.filename vectorUpdateVerbose opts.aosOpenOptions <;>
    simp [run, negotiate, initialFlags, mayRetryUpdateMode, probeInvoked, hU,
      hR, h1]

/-- Witness for C9 at a concrete invocation with both explicit requests. -/
theorem c9_both_flags_behaves_as_force_update_witness :
    w9Opts.bUpdate = true ∧ w9Opts.bReadOnly = true ∧
    (run w9Opts envOpensNever =
        run { w9Opts with bReadOnly := false } envOpensNever ∧
      (run w9Opts envOpensNever).opens =
        [⟨w9Opts.filename, vectorUpdateVerbose, w9Opts.aosOpenOptions⟩]) :=
  ⟨rfl, rfl,
    c9_both_flags_behaves_as_force_update w9Opts envOpensNever rfl rfl⟩

/-- Claim C10 (implicit): every opener invocation — primary and fallback —
passes the caller's path and open-options list unchanged, and no attempt
after the first carries the VerboseError bit. -/
theorem c10_fallback_same_path_options_no_verbose (opts : BinOptions)
    (env : Env) :
    ((run opts env).opens.all fun c =>
      c.path == opts.filename && c.options == opts.aosOpenOptions) = true ∧
    (((run opts env).opens.drop 1).all fun c =>
      c.flags.verboseError == false) = true := by
  cases hU : opts.bUpdate <;> cases hR : opts.bReadOnly <;>
    cases hS : opts.osSQLStatement.isEmpty <;>
      cases hI : env.identify opts.filename <;>
        cases h1 : env.openDS opts.filename (initialFlags opts env)
            opts.aosOpenOptions <;>
          simp_all [run, negotiate, initialFlags, mayRetryUpdateMode,
            vectorReadOnly, vectorUpdate, vectorUpdateVerbose]

end Ogrinfo
